import Mathlib

/-!
Verification model of `doom_server.c` (poodlez/doom).

The C source is shallowly embedded: machine integers are `Nat`/`Int` with
explicit `% 2^w` where wrap-around matters, C strings are `List Char`,
out-of-process effects (X11 server, `malloc`, `fork`, `time(NULL)`) are
supplied by an explicit environment record, and each C function becomes an
executable Lean function over that environment.
-/

namespace DoomServer

/-- Constant `MAX_SESSIONS` from `doom_server.c`. -/
def MAX_SESSIONS : Nat := 8

/-- Constant `FRAME_WIDTH` from `doom_server.c`. -/
def FRAME_WIDTH : Nat := 320

/-- Constant `FRAME_HEIGHT` from `doom_server.c`. -/
def FRAME_HEIGHT : Nat := 200

/-- Size in bytes of the canonical RGB buffer (`FRAME_WIDTH * FRAME_HEIGHT * 3`). -/
def RGB_SIZE : Nat := FRAME_WIDTH * FRAME_HEIGHT * 3

/-- The value `2^64`, the modulus of C `unsigned long` on the target (LP64). -/
def ULMOD : Nat := 2 ^ 64

/-- C `isspace` for the default locale restricted to ASCII, as a Bool. -/
def c_isspace (c : Char) : Bool :=
  c == ' ' || c == '\t' || c == '\n' || c == '\x0b' || c == '\x0c' || c == '\r'

/-- C `isalpha` (ASCII). -/
def c_isalpha (c : Char) : Bool :=
  ('a' ≤ c && c ≤ 'z') || ('A' ≤ c && c ≤ 'Z')

/-- C `isdigit` (ASCII). -/
def c_isdigit (c : Char) : Bool :=
  '0' ≤ c && c ≤ '9'

/-- C `tolower` (ASCII). -/
def c_tolower (c : Char) : Char :=
  if 'A' ≤ c && c ≤ 'Z' then Char.ofNat (c.toNat + 32) else c

/-- An X11 `XImage` as far as `capture_frame` inspects it: bit depth,
channel masks and a pixel accessor (`XGetPixel`). -/
structure XImg where
  bits_per_pixel : Nat
  red_mask : Nat
  green_mask : Nat
  blue_mask : Nat
  pix : Nat → Nat → Nat

/-- The world outside the C process: results of `malloc`, `fork`,
`access`, and of every X11 call the server makes.  Windows are `Nat`
(X11 `None` is `0`); `lookup` is `XStringToKeysym` (`none` = `NoSymbol`),
`keycodeOf` is `XKeysymToKeycode` (`0` = no keycode). -/
structure Env where
  disableSpawn : Bool
  wadReadable : Bool
  mallocOk : Bool
  mallocJunk : Nat → Nat
  openDisplay : Bool
  xtestAvail : Bool
  findWin : Option Nat
  root : Nat
  forkPid : Option Nat
  lookup : List Char → Option Nat
  keycodeOf : Nat → Nat
  viewable : Nat → Bool
  getImage : Nat → Option XImg

/-- Model of `struct Session` from `doom_server.c`.  `rgb_allocated` tracks whether
`rgb_buf` is a live allocation (the C pointer being non-NULL); buffer
contents are a total function from byte index to byte value. -/
structure Session where
  active : Bool
  id : Int
  doom_pid : Nat
  display : Bool
  window : Nat
  xtest_available : Bool
  rgb_allocated : Bool
  rgb_buf : Nat → Nat
  last_activity : Nat
  frame_id : Nat

/-- The all-zero session produced by `memset(session, 0, sizeof *session)`. -/
def emptySession : Session :=
  { active := false, id := 0, doom_pid := 0, display := false, window := 0,
    xtest_available := false, rgb_allocated := false, rgb_buf := fun _ => 0,
    last_activity := 0, frame_id := 0 }

/-- Model of `session_free`: a no-op on inactive slots, otherwise tears everything
down and zeroes the struct. -/
def session_free (s : Session) : Session :=
  if s.active = false then s else emptySession

/-- The session pool `sessions[MAX_SESSIONS]` as a map from index to slot. -/
def Pool : Type := Nat → Session

/-- Write one slot of the pool. -/
def setPool (pool : Pool) (i : Nat) (s : Session) : Pool :=
  fun j => if j = i then s else pool j

/-- Model of `maybe_spawn_doom`: `none` is the C return value `-1`; on success the
second component counts processes spawned by this call (0 when
`DOOM_DISABLE_SPAWN` short-circuits, 1 after a successful `fork`). -/
def maybe_spawn_doom (env : Env) (s : Session) : Option (Session × Nat) :=
  if env.disableSpawn then some (s, 0)
  else if env.wadReadable = false then none
  else
    match env.forkPid with
    | none => none
    | some pid => some ({ s with doom_pid := pid }, 1)

/-- Result of `session_get_or_create`: the C function returns a pointer
into `sessions[]` or `NULL`; the two `NULL` paths (id out of range versus
initialization failure) are distinguished by which branch produced them. -/
inductive GetRes where
  | ok (i : Nat)
  | notFound
  | resourceErr
  deriving DecidableEq, Repr

/-- Model of `session_get_or_create`.  Returns the result, the pool after the call,
and how many external processes the call spawned. -/
def session_get_or_create (env : Env) (pool : Pool) (sid : Int) (now : Nat) :
    GetRes × Pool × Nat :=
  if sid < 0 ∨ (MAX_SESSIONS : Int) ≤ sid then (GetRes.notFound, pool, 0)
  else
    let i := sid.toNat
    let slot := pool i
    if slot.active = false then
      let s0 : Session :=
        { emptySession with
          id := sid
          active := true
          last_activity := now
          rgb_allocated := env.mallocOk
          rgb_buf := env.mallocJunk }
      if env.mallocOk = false then
        (GetRes.resourceErr, setPool pool i (session_free s0), 0)
      else
        let s1 : Session :=
          if env.openDisplay then
            let s1a := { s0 with display := true, xtest_available := env.xtestAvail }
            match env.findWin with
            | some w => { s1a with window := w }
            | none => { s1a with window := env.root }
          else s0
        match maybe_spawn_doom env s1 with
        | none => (GetRes.resourceErr, setPool pool i (session_free s1), 0)
        | some (s2, n) => (GetRes.ok i, setPool pool i s2, n)
    else
      (GetRes.ok i, setPool pool i { slot with last_activity := now }, 0)

/-- Model of `mask_shift`: count of trailing zero bits of the mask (0 for mask 0). -/
def mask_shift (mask : Nat) : Nat :=
  if h : mask = 0 then 0
  else if mask % 2 = 1 then 0
  else mask_shift (mask / 2) + 1
decreasing_by exact Nat.div_lt_self (Nat.pos_of_ne_zero h) one_lt_two

/-- Model of `mask_bits`: population count of the mask. -/
def mask_bits (mask : Nat) : Nat :=
  if h : mask = 0 then 0
  else mask % 2 + mask_bits (mask / 2)
decreasing_by exact Nat.div_lt_self (Nat.pos_of_ne_zero h) one_lt_two

/-- Model of `extract_component`: normalize one channel of a packed pixel to 8 bits.
`unsigned long` multiplication wraps modulo `ULMOD`; the final
`(unsigned char)` cast is `% 256`. -/
def extract_component (pixel mask : Nat) : Nat :=
  if mask = 0 then 0
  else
    let shift := mask_shift mask
    let bits := mask_bits mask
    let value := (pixel &&& mask) >>> shift
    if 8 ≤ bits then (value >>> (bits - 8)) % 256
    else
      let max_value := 2 ^ bits - 1
      if max_value = 0 then 0
      else (value * 255 % ULMOD / max_value) % 256

/-- One byte of the synthetic test pattern: the flat index
`(y * FRAME_WIDTH + x) * 3 + channel` decoded back into `x`, `y` and the
channel written by `generate_test_pattern`'s loop body. -/
def patByte (fid idx : Nat) : Nat :=
  let y := idx / (FRAME_WIDTH * 3)
  let x := idx / 3 % FRAME_WIDTH
  match idx % 3 with
  | 0 => (x + fid) % 256
  | 1 => y * 2 % 256
  | _ => fid * 5 % 256

/-- Model of `generate_test_pattern`: overwrite the first `RGB_SIZE` bytes of the
session's RGB buffer with the synthetic pattern for the current frame id. -/
def generate_test_pattern (s : Session) : Session :=
  { s with rgb_buf := fun idx =>
      if idx < RGB_SIZE then patByte s.frame_id idx else s.rgb_buf idx }

/-- Model of `refresh_session_window`: keep the bound window if it is still a
viewable non-root window, otherwise re-run window discovery and fall back
to the root window. -/
def refresh_session_window (env : Env) (s : Session) : Session :=
  if s.display = false then s
  else
    if s.window ≠ 0 ∧ s.window ≠ env.root ∧ env.viewable s.window then s
    else
      match env.findWin with
      | some w => { s with window := w }
      | none => { s with window := env.root }

/-- Which branch of `capture_frame` filled the buffer. -/
inductive CapMode where
  | synthetic
  | real
  deriving DecidableEq, Repr

/-- The window `capture_frame` captures after refreshing the session's
window binding (the root window when none is bound). -/
def captureTarget (env : Env) (s : Session) : Nat :=
  let s1 := refresh_session_window env s
  if s1.window = 0 then env.root else s1.window

/-- One byte of the real-capture conversion: the pixel at the decoded
`x`/`y` run through `extract_component` with the image's channel masks. -/
def realByte (img : XImg) (idx : Nat) : Nat :=
  let y := idx / (FRAME_WIDTH * 3)
  let x := idx / 3 % FRAME_WIDTH
  let pixel := img.pix x y
  match idx % 3 with
  | 0 => extract_component pixel img.red_mask
  | 1 => extract_component pixel img.green_mask
  | _ => extract_component pixel img.blue_mask

/-- Model of `capture_frame`: returns the updated session, the C return value
(`true` on every path of the source) and which generator filled the
buffer. -/
def capture_frame (env : Env) (s : Session) : Session × Bool × CapMode :=
  if s.display = false then
    let s' := generate_test_pattern s
    ({ s' with frame_id := s'.frame_id + 1 }, true, CapMode.synthetic)
  else
    let s1 := refresh_session_window env s
    let target := if s1.window = 0 then env.root else s1.window
    match env.getImage target with
    | none =>
        let s' := generate_test_pattern s1
        ({ s' with frame_id := s'.frame_id + 1 }, true, CapMode.synthetic)
    | some img =>
        if img.bits_per_pixel < 16 then
          let s' := generate_test_pattern s1
          ({ s' with frame_id := s'.frame_id + 1 }, true, CapMode.synthetic)
        else
          let s' :=
            { s1 with rgb_buf := fun idx =>
                if idx < RGB_SIZE then realByte img idx else s1.rgb_buf idx }
          ({ s' with frame_id := s'.frame_id + 1 }, true, CapMode.real)

/-- The `key_aliases` table: lowercased incoming token to X keysym name. -/
def key_aliases : List (List Char × List Char) :=
  [(" ".toList, "space".toList),
   ("space".toList, "space".toList),
   ("spacebar".toList, "space".toList),
   ("arrowup".toList, "Up".toList),
   ("up".toList, "Up".toList),
   ("arrowdown".toList, "Down".toList),
   ("down".toList, "Down".toList),
   ("arrowleft".toList, "Left".toList),
   ("left".toList, "Left".toList),
   ("arrowright".toList, "Right".toList),
   ("right".toList, "Right".toList),
   ("ctrl".toList, "Control_L".toList),
   ("control".toList, "Control_L".toList),
   ("control_l".toList, "Control_L".toList),
   ("controlleft".toList, "Control_L".toList),
   ("ctrl_l".toList, "Control_L".toList),
   ("control_r".toList, "Control_R".toList),
   ("controlright".toList, "Control_R".toList),
   ("ctrl_r".toList, "Control_R".toList),
   ("alt".toList, "Alt_L".toList),
   ("alt_l".toList, "Alt_L".toList),
   ("altleft".toList, "Alt_L".toList),
   ("alt_r".toList, "Alt_R".toList),
   ("altright".toList, "Alt_R".toList),
   ("shift".toList, "Shift_L".toList),
   ("shift_l".toList, "Shift_L".toList),
   ("shiftleft".toList, "Shift_L".toList),
   ("shift_r".toList, "Shift_R".toList),
   ("shiftright".toList, "Shift_R".toList),
   ("enter".toList, "Return".toList),
   ("return".toList, "Return".toList),
   ("escape".toList, "Escape".toList),
   ("esc".toList, "Escape".toList),
   ("tab".toList, "Tab".toList),
   ("backspace".toList, "BackSpace".toList),
   ("capslock".toList, "Caps_Lock".toList),
   ("meta".toList, "Super_L".toList),
   ("meta_l".toList, "Super_L".toList),
   ("metal".toList, "Super_L".toList),
   ("meta_r".toList, "Super_R".toList),
   ("metar".toList, "Super_R".toList)]

/-- The alias loop of `resolve_keysym`: on a table hit whose keysym name
does not resolve, the C loop continues with the remaining entries. -/
def aliasLookup (env : Env) (lowered : List Char) :
    List (List Char × List Char) → Option Nat
  | [] => none
  | (incoming, ksname) :: rest =>
      if lowered = incoming then
        match env.lookup ksname with
        | some k => some k
        | none => aliasLookup env lowered rest
      else aliasLookup env lowered rest

/-- The `"Key"`-prefixed fast path of `resolve_keysym` (`KeyW` etc.). -/
def keyFourPath (env : Env) (trimmed : List Char) (len : Nat) : Option Nat :=
  if trimmed.take 3 = "Key".toList ∧ len = 4 then
    let c := trimmed.getD 3 'a'
    if c_isalpha c then env.lookup [c_tolower c] else none
  else none

/-- The `"Digit"`-prefixed fast path of `resolve_keysym` (`Digit5` etc.). -/
def digitSixPath (env : Env) (trimmed : List Char) (len : Nat) : Option Nat :=
  if trimmed.take 5 = "Digit".toList ∧ len = 6 then
    let c := trimmed.getD 5 'a'
    if c_isdigit c then env.lookup [c] else none
  else none

/-- Model of `resolve_keysym`: alias table, `Key`/`Digit` fast paths, direct and
lowercased `XStringToKeysym`, then the single-character fallback that
returns the character's own code. -/
def resolve_keysym (env : Env) (name : List Char) : Option Nat :=
  if name = [] then none
  else
    let trimmed := name.take 63
    let len := trimmed.length
    let lowered := trimmed.map c_tolower
    match aliasLookup env lowered key_aliases with
    | some k => some k
    | none =>
      match keyFourPath env trimmed len with
      | some k => some k
      | none =>
        match digitSixPath env trimmed len with
        | some k => some k
        | none =>
          match env.lookup trimmed with
          | some k => some k
          | none =>
            match env.lookup lowered with
            | some k => some k
            | none =>
              if len = 1 then
                let c := trimmed.getD 0 'a'
                if c_isalpha c then
                  match env.lookup [c_tolower c] with
                  | some k => some k
                  | none => some c.toNat
                else some c.toNat
              else none

/-- A key transition synthesized through `XTestFakeKeyEvent`. -/
inductive KeyEvent where
  | keyDown (keycode : Nat)
  | keyUp (keycode : Nat)
  deriving DecidableEq, Repr

/-- Trim `isspace` characters from both ends (the `start`/`end` scan at
the top of `session_write_input`). -/
def c_trim (l : List Char) : List Char :=
  ((l.dropWhile c_isspace).reverse.dropWhile c_isspace).reverse

/-- Strip an optional leading `"key:"` tag followed by more whitespace. -/
def strip_key_tag (l : List Char) : List Char :=
  if 4 ≤ l.length ∧ l.take 4 = "key:".toList then
    (l.drop 4).dropWhile c_isspace
  else l

/-- Truncate the key token exactly as the `key_len >= 63 → 62` clamp and
`memcpy` into `keybuf[64]` do. -/
def truncate62 (l : List Char) : List Char :=
  if 63 ≤ l.length then l.take 62 else l

/-- Index of the last `':'` in the buffer (`strrchr`). -/
def lastColonIdx (l : List Char) : Option Nat :=
  (l.reverse.findIdx? (· == ':')).map (fun j => l.length - 1 - j)

/-- The action-suffix split: `(explicit_action, is_press, keybuf)` after
the `strrchr(keybuf, ':')` block.  Whenever a colon with a nonempty tail
exists, the tail is consumed (`*action_sep = '\0'`) even if it names no
recognized action; the tail is lowercased and clamped to 15 bytes before
comparison. -/
def split_action (l : List Char) : Bool × Bool × List Char :=
  match lastColonIdx l with
  | none => (false, true, l)
  | some i =>
      if i + 1 < l.length then
        let action := ((l.drop (i + 1)).take 15).map c_tolower
        let keybuf := l.take i
        if action = "down".toList ∨ action = "press".toList then
          (true, true, keybuf)
        else if action = "up".toList ∨ action = "release".toList then
          (true, false, keybuf)
        else (false, true, keybuf)
      else (false, true, l)

/-- Model of `session_write_input`: returns the C return value, the session after
the call, and the key transitions synthesized via XTest. -/
def session_write_input (env : Env) (s : Session) (payload : List Char)
    (now : Nat) : Int × Session × List KeyEvent :=
  let s1 := { s with last_activity := now }
  if s1.display = false ∨ s1.xtest_available = false then (-1, s1, [])
  else if payload = [] then (-1, s1, [])
  else
    let t1 := c_trim payload
    if t1 = [] then (-1, s1, [])
    else
      let t2 := strip_key_tag t1
      if t2 = [] then (-1, s1, [])
      else
        let t3 := truncate62 t2
        match split_action t3 with
        | (explicit_action, is_press, keybuf) =>
          if keybuf = [] then (-1, s1, [])
          else
            match resolve_keysym env keybuf with
            | none => (-1, s1, [])
            | some keysym =>
                let keycode := env.keycodeOf keysym
                if keycode = 0 then (-1, s1, [])
                else
                  let s2 := refresh_session_window env s1
                  let evs :=
                    if explicit_action then
                      [if is_press then KeyEvent.keyDown keycode
                       else KeyEvent.keyUp keycode]
                    else [KeyEvent.keyDown keycode, KeyEvent.keyUp keycode]
                  (0, s2, evs)

/-- Accumulate the leading decimal digits (the digit loop of `atoi`). -/
def digitsVal (l : List Char) : Nat :=
  (l.takeWhile c_isdigit).foldl (fun acc c => acc * 10 + (c.toNat - 48)) 0

/-- C `atoi`: skip whitespace, optional sign, leading digits; 0 when no
digits follow. -/
def atoi (l : List Char) : Int :=
  match l.dropWhile c_isspace with
  | [] => 0
  | c :: rest =>
      if c = '-' then -(digitsVal rest : Int)
      else if c = '+' then (digitsVal rest : Int)
      else (digitsVal (c :: rest) : Int)

/-- Bool test that `needle` starts `hay`. -/
def leadsWith : List Char → List Char → Bool
  | [], _ => true
  | _ :: _, [] => false
  | a :: as, b :: bs => a == b && leadsWith as bs

/-- Model of `strstr(hay, needle)` advanced past the needle: the tail of `hay`
right after the first occurrence of `needle`. -/
def findSub : List Char → List Char → Option (List Char)
  | hay, needle =>
    if leadsWith needle hay then some (hay.drop needle.length)
    else
      match hay with
      | [] => none
      | _ :: t => findSub t needle

/-- Bool test that `needle` occurs somewhere in `hay`. -/
def occursB (needle : List Char) : List Char → Bool
  | [] => leadsWith needle []
  | c :: t => leadsWith needle (c :: t) || occursB needle t

/-- The literal `"session="` needle of `parse_session_id`. -/
def sessionNeedle : List Char := "session=".toList

/-- Model of `parse_session_id`: 0 for an empty query or a query without the
needle, otherwise `atoi` of the text after the needle's first occurrence. -/
def parse_session_id (query : List Char) : Int :=
  if query = [] then 0
  else
    match findSub query sessionNeedle with
    | none => 0
    | some rest => atoi rest

/-- Modelled from the spec: split a query string on `&`. -/
def splitAmp : List Char → List (List Char)
  | [] => [[]]
  | c :: t =>
      if c = '&' then [] :: splitAmp t
      else
        match splitAmp t with
        | [] => [[c]]
        | p :: ps => (c :: p) :: ps

/-- Modelled from the spec: the value of one `key=value` query parameter,
`none` when no `=` is present. -/
def paramValue (p : List Char) : Option (List Char) :=
  match findSub p ['='] with
  | some v => some v
  | none => none

/-- Modelled from the spec: the key of one `key=value` query parameter. -/
def paramKey (p : List Char) : List Char :=
  p.takeWhile (fun c => c ≠ '=')

/-- Modelled from the spec ("a session-identifier query parameter"): the
value of the first query parameter whose key is exactly `session`. -/
def specSessionValue (query : List Char) : Option (List Char) :=
  match (splitAmp query).filter (fun p => paramKey p = "session".toList) with
  | [] => none
  | p :: _ => paramValue p

/-- The `POST /input` branch of `handle_request`: look the session up
(creating it first), then reject empty bodies, then inject the payload.
Returns status, pool after, processes spawned, synthesized events. -/
def handle_input_route (env : Env) (query body : List Char) (pool : Pool)
    (tCreate tInput : Nat) : Nat × Pool × Nat × List KeyEvent :=
  match session_get_or_create env pool (parse_session_id query) tCreate with
  | (GetRes.ok i, p1, n) =>
      if body.length = 0 then (400, p1, n, [])
      else
        match session_write_input env (p1 i) body tInput with
        | (ret, s', evs) =>
          ((if ret = 0 then 200 else 500), setPool p1 i s', n, evs)
  | (_, p1, n) => (503, p1, n, [])

/-- The `GET /doom.mjpeg` branch of `handle_request` up to the start of
the streaming loop: the session lookup/creation side effects. -/
def handle_stream_route (env : Env) (query : List Char) (pool : Pool)
    (now : Nat) : Nat × Pool × Nat :=
  match session_get_or_create env pool (parse_session_id query) now with
  | (GetRes.ok _, p1, n) => (200, p1, n)
  | (_, p1, n) => (503, p1, n)

/-- Refreshing the window binding never changes whether a display is open. -/
lemma refresh_display (env : Env) (s : Session) :
    (refresh_session_window env s).display = s.display := by
  unfold refresh_session_window
  repeat' split
  all_goals rfl

/-- A fixed environment used by witnesses: allocation and spawning
succeed, no X display is available, every keysym lookup fails. -/
def envW : Env :=
  { disableSpawn := false
    wadReadable := true
    mallocOk := true
    mallocJunk := fun _ => 0
    openDisplay := false
    xtestAvail := false
    findWin := none
    root := 1
    forkPid := some 7
    lookup := fun _ => none
    keycodeOf := fun _ => 0
    viewable := fun _ => false
    getImage := fun _ => none }

/-- The all-empty pool at process start. -/
def poolW : Pool := fun _ => emptySession

/-- An active session with no display bound, as created under `envW`. -/
def sW0 : Session :=
  { emptySession with active := true, rgb_allocated := true }

/-- C3: for an identifier outside `[0, MAX_SESSIONS)`,
`session_get_or_create` returns the not-found null handle, spawns
nothing, and returns the pool untouched. -/
theorem c3_out_of_range (env : Env) (pool : Pool) (sid : Int) (now : Nat)
    (h : sid < 0 ∨ (MAX_SESSIONS : Int) ≤ sid) :
    session_get_or_create env pool sid now = (GetRes.notFound, pool, 0) := by
  unfold session_get_or_create
  rw [if_pos h]

theorem c3_out_of_range_witness :
    session_get_or_create envW poolW 9 0 = (GetRes.notFound, poolW, 0) :=
  c3_out_of_range envW poolW 9 0 (Or.inr (by norm_num [MAX_SESSIONS]))

/-- C7: with no display bound, every capture succeeds, reports the
synthetic generator, fills exactly the `RGB_SIZE` canonical buffer with
the frame-counter pattern, bumps the frame counter, and a consecutive
capture produces a different buffer. -/
theorem c7_synthetic_pattern (env : Env) (s : Session) (h : s.display = false) :
    (capture_frame env s).2.1 = true ∧
    (capture_frame env s).2.2 = CapMode.synthetic ∧
    (capture_frame env s).1.frame_id = s.frame_id + 1 ∧
    (∀ i, i < RGB_SIZE → (capture_frame env s).1.rgb_buf i = patByte s.frame_id i) ∧
    (∀ i, RGB_SIZE ≤ i → (capture_frame env s).1.rgb_buf i = s.rgb_buf i) ∧
    (∃ i, i < RGB_SIZE ∧
      (capture_frame env (capture_frame env s).1).1.rgb_buf i ≠
        (capture_frame env s).1.rgb_buf i) := by
  refine ⟨?_, ?_, ?_, ?_, ?_, ?_⟩
  · simp [capture_frame, h]
  · simp [capture_frame, h]
  · simp [capture_frame, h, generate_test_pattern]
  · intro i hi
    simp [capture_frame, h, generate_test_pattern, hi]
  · intro i hi
    simp [capture_frame, h, generate_test_pattern, Nat.not_lt_of_le hi]
  · refine ⟨0, by norm_num [RGB_SIZE, FRAME_WIDTH, FRAME_HEIGHT], ?_⟩
    simp [capture_frame, h, generate_test_pattern, RGB_SIZE, FRAME_WIDTH,
      FRAME_HEIGHT, patByte]
    omega

theorem c7_synthetic_pattern_witness :
    (capture_frame envW sW0).2.2 = CapMode.synthetic :=
  (c7_synthetic_pattern envW sW0 rfl).2.1

/-- Session fixture for C4: display bound, a window attached. -/
def c4s : Session :=
  { emptySession with
    active := true
    doom_pid := 42
    display := true
    window := 5
    xtest_available := true
    rgb_allocated := true }

/-- C4 fixture: the X server fails `XGetImage` (structural capture
failure). -/
def c4envFail : Env :=
  { envW with openDisplay := true, viewable := fun _ => true, findWin := some 5 }

/-- C4 fixture: a healthy 24-bit image returned by the X server. -/
def c4img : XImg :=
  { bits_per_pixel := 24
    red_mask := 0xFF0000
    green_mask := 0xFF00
    blue_mask := 0xFF
    pix := fun _ _ => 0 }

/-- C4 fixture: the X server recovers and serves `c4img`. -/
def c4envOk : Env :=
  { c4envFail with getImage := fun _ => some c4img }

/-- C4 counterexample: a capture that fails structurally falls back to
the synthetic generator for that frame, but the very next capture uses
the real source again — the downgrade is not one-way. -/
theorem c4_counterexample :
    (capture_frame c4envFail c4s).2.2 = CapMode.synthetic ∧
    (capture_frame c4envOk (capture_frame c4envFail c4s).1).2.2 = CapMode.real := by
  constructor <;> rfl

/-- C4 (amended): the fallback to the synthetic generator is decided
independently on every capture call — a session with no display always
uses the synthetic generator, a structural failure (no image, or bit
depth below 16) produces one synthetic frame without tearing the display
binding down, and a healthy image on any later call is used for real
capture again.  No downgrade state persists. -/
theorem c4_amended_per_frame_fallback (env : Env) (s : Session) :
    ((capture_frame env s).1.display = s.display) ∧
    (s.display = false → (capture_frame env s).2.2 = CapMode.synthetic) ∧
    (s.display = true → env.getImage (captureTarget env s) = none →
      (capture_frame env s).2.2 = CapMode.synthetic) ∧
    (∀ img, s.display = true → env.getImage (captureTarget env s) = some img →
      img.bits_per_pixel < 16 →
      (capture_frame env s).2.2 = CapMode.synthetic) ∧
    (∀ img, s.display = true → env.getImage (captureTarget env s) = some img →
      16 ≤ img.bits_per_pixel →
      (capture_frame env s).2.2 = CapMode.real) := by
  unfold capture_frame captureTarget
  refine ⟨?_, ?_, ?_, ?_, ?_⟩
  · cases hs : s.display
    · simp [hs, generate_test_pattern]
    · have hd := refresh_display env s
      rw [hs] at hd
      simp only [hs, Bool.true_eq_false, if_false]
      split
      · simp [generate_test_pattern, hd]
      · split
        · simp [generate_test_pattern, hd]
        · simp [hd]
  · intro h
    simp [h]
  · intro h himg
    simp only [h]
    simp only [Bool.true_eq_false, if_false, himg]
  · intro img h himg hbpp
    simp only [h]
    simp only [Bool.true_eq_false, if_false, himg, if_pos hbpp]
  · intro img h himg hbpp
    simp only [h]
    simp only [Bool.true_eq_false, if_false, himg, if_neg (Nat.not_lt_of_le hbpp)]

theorem c4_amended_witness :
    (capture_frame c4envOk c4s).2.2 = CapMode.real :=
  (c4_amended_per_frame_fallback c4envOk c4s).2.2.2.2 c4img rfl rfl
    (by norm_num [c4img])

/-- The session produced by a fully successful first
`session_get_or_create` on an empty slot (allocation and spawn both
succeed), written field by field. -/
def initSession (env : Env) (sid : Int) (now : Nat) : Session :=
  { active := true
    id := sid
    doom_pid := env.forkPid.getD 0
    display := env.openDisplay
    window :=
      if env.openDisplay then
        match env.findWin with
        | some w => w
        | none => env.root
      else 0
    xtest_available := env.openDisplay && env.xtestAvail
    rgb_allocated := true
    rgb_buf := env.mallocJunk
    last_activity := now
    frame_id := 0 }

/-- Characterization of `session_get_or_create` on an empty slot when
allocation succeeds and the spawn succeeds: it activates the slot with
`initSession` and spawns exactly one process. -/
lemma get_or_create_empty_success (env : Env) (pool : Pool) (sid : Int)
    (now : Nat) (p : Nat)
    (h0 : 0 ≤ sid) (h8 : sid < (MAX_SESSIONS : Int))
    (hempty : (pool sid.toNat).active = false)
    (hm : env.mallocOk = true) (hd : env.disableSpawn = false)
    (hw : env.wadReadable = true) (hf : env.forkPid = some p) :
    session_get_or_create env pool sid now =
      (GetRes.ok sid.toNat, setPool pool sid.toNat (initSession env sid now), 1) := by
  unfold session_get_or_create maybe_spawn_doom
  rw [if_neg (by omega)]
  simp only [hempty, hm, hd, hw, hf, Bool.true_eq_false, Bool.false_eq_true,
    if_false, ite_false]
  simp only [Bool.false_eq_true, if_false, ite_false, reduceIte]
  cases ho : env.openDisplay <;> cases hfw : env.findWin <;>
    simp [initSession, emptySession, ho, hfw, hf, Session.mk.injEq]

/-- Characterization of `session_get_or_create` on an active slot: it
only refreshes the last-activity timestamp and spawns nothing. -/
lemma get_or_create_active (env : Env) (pool : Pool) (sid : Int) (now : Nat)
    (h0 : 0 ≤ sid) (h8 : sid < (MAX_SESSIONS : Int))
    (hact : (pool sid.toNat).active = true) :
    session_get_or_create env pool sid now =
      (GetRes.ok sid.toNat,
        setPool pool sid.toNat { pool sid.toNat with last_activity := now }, 0) := by
  unfold session_get_or_create
  rw [if_neg (by omega)]
  simp [hact]

/-- C1 counterexample: an immediate second `get_or_create` of the same
identifier (the clock has not advanced) reuses the slot and spawns
nothing, but the last-activity timestamp is merely rewritten to the same
value — it does not strictly increase. -/
theorem c1_counterexample :
    (session_get_or_create envW poolW 0 5).1 = GetRes.ok 0 ∧
    (session_get_or_create envW (session_get_or_create envW poolW 0 5).2.1 0 5).1 =
      GetRes.ok 0 ∧
    (session_get_or_create envW poolW 0 5).2.2 = 1 ∧
    (session_get_or_create envW (session_get_or_create envW poolW 0 5).2.1 0 5).2.2 = 0 ∧
    ¬ (((session_get_or_create envW poolW 0 5).2.1 0).last_activity <
        ((session_get_or_create envW (session_get_or_create envW poolW 0 5).2.1 0 5).2.1 0).last_activity) := by
  refine ⟨rfl, rfl, rfl, rfl, ?_⟩
  decide

/-- C1 (amended): for a valid identifier and a fully successful creation,
an immediately repeated `get_or_create` returns a handle to the same
slot, spawns nothing further (the first call spawned exactly once), and
rewrites the last-activity timestamp to the second call's clock value —
so it never decreases, and strictly increases exactly when the clock
advanced between the calls. -/
theorem c1_amended_same_slot_refresh (env : Env) (pool : Pool) (sid : Int)
    (t1 t2 : Nat) (p : Nat)
    (h0 : 0 ≤ sid) (h8 : sid < (MAX_SESSIONS : Int))
    (hempty : (pool sid.toNat).active = false)
    (hm : env.mallocOk = true) (hd : env.disableSpawn = false)
    (hw : env.wadReadable = true) (hf : env.forkPid = some p) :
    (session_get_or_create env pool sid t1).1 = GetRes.ok sid.toNat ∧
    (session_get_or_create env (session_get_or_create env pool sid t1).2.1 sid t2).1 =
      GetRes.ok sid.toNat ∧
    (session_get_or_create env pool sid t1).2.2 = 1 ∧
    (session_get_or_create env (session_get_or_create env pool sid t1).2.1 sid t2).2.2 = 0 ∧
    ((session_get_or_create env pool sid t1).2.1 sid.toNat).last_activity = t1 ∧
    ((session_get_or_create env (session_get_or_create env pool sid t1).2.1 sid t2).2.1 sid.toNat).last_activity = t2 ∧
    (session_get_or_create env (session_get_or_create env pool sid t1).2.1 sid t2).2.1 sid.toNat =
      { (session_get_or_create env pool sid t1).2.1 sid.toNat with last_activity := t2 } ∧
    (t1 < t2 →
      ((session_get_or_create env pool sid t1).2.1 sid.toNat).last_activity <
        ((session_get_or_create env (session_get_or_create env pool sid t1).2.1 sid t2).2.1 sid.toNat).last_activity) := by
  have h1 := get_or_create_empty_success env pool sid t1 p h0 h8 hempty hm hd hw hf
  have hslot1 : (session_get_or_create env pool sid t1).2.1 sid.toNat =
      initSession env sid t1 := by
    rw [h1]; simp [setPool]
  have hact : ((session_get_or_create env pool sid t1).2.1 sid.toNat).active = true := by
    rw [hslot1]; rfl
  have h2 := get_or_create_active env (session_get_or_create env pool sid t1).2.1
    sid t2 h0 h8 hact
  have hslot2 :
      (session_get_or_create env (session_get_or_create env pool sid t1).2.1 sid t2).2.1 sid.toNat =
      { (session_get_or_create env pool sid t1).2.1 sid.toNat with last_activity := t2 } := by
    rw [h2]; simp [setPool]
  refine ⟨by rw [h1], by rw [h2], by rw [h1], by rw [h2], ?_, ?_, hslot2, ?_⟩
  · rw [hslot1]; rfl
  · rw [hslot2]
  · intro hlt
    rw [hslot2, hslot1]
    simpa [initSession] using hlt

theorem c1_amended_witness :
    ((session_get_or_create envW (session_get_or_create envW poolW 0 5).2.1 0 9).2.1 0).last_activity = 9 :=
  (c1_amended_same_slot_refresh envW poolW 0 5 9 7 (by norm_num)
    (by norm_num [MAX_SESSIONS]) rfl rfl rfl rfl rfl).2.2.2.2.2.1

/-- Lemma: `maybe_spawn_doom` fails when spawning is enabled and either the WAD
is unreadable or `fork` fails. -/
lemma maybe_spawn_fail (env : Env) (s : Session)
    (hd : env.disableSpawn = false)
    (hsp : env.wadReadable = false ∨ env.forkPid = none) :
    maybe_spawn_doom env s = none := by
  unfold maybe_spawn_doom
  simp only [hd, Bool.false_eq_true, if_false, reduceIte]
  rcases hsp with hw | hf
  · simp [hw]
  · by_cases hw2 : env.wadReadable = false
    · simp [hw2]
    · simp [hw2, hf]

/-- Writing the same value into the same slot of pools that agree
everywhere else yields equal pools. -/
lemma setPool_congr (pool1 pool2 : Pool) (i : Nat) (v : Session)
    (hrest : ∀ j, j ≠ i → pool1 j = pool2 j) :
    setPool pool1 i v = setPool pool2 i v := by
  funext j
  by_cases h : j = i <;> simp [setPool, h, hrest]

/-- Lemma: `session_get_or_create` computes the same result on two pools whose
slot for a valid identifier is empty in both and which agree on every
other slot: initialization never reads the stale slot contents. -/
lemma get_or_create_congr (env : Env) (pool1 pool2 : Pool) (sid : Int)
    (now : Nat) (h0 : 0 ≤ sid) (h8 : sid < (MAX_SESSIONS : Int))
    (ha : (pool1 sid.toNat).active = false)
    (hb : (pool2 sid.toNat).active = false)
    (hrest : ∀ j, j ≠ sid.toNat → pool1 j = pool2 j) :
    session_get_or_create env pool1 sid now =
      session_get_or_create env pool2 sid now := by
  unfold session_get_or_create
  have hc : ¬(sid < 0 ∨ (MAX_SESSIONS : Int) ≤ sid) := by omega
  rw [if_neg hc]
  rw [if_neg hc]
  simp only [ha, hb]
  by_cases hm : env.mallocOk = false
  · simp [hm, setPool_congr _ _ _ _ hrest]
  · simp only [hm, if_false, reduceIte]
    cases hsp : maybe_spawn_doom env _ with
    | none => simp [setPool_congr _ _ _ _ hrest]
    | some v => simp [setPool_congr _ _ _ _ hrest]

/-- C2: when initialization of an empty slot hits a hard failure (the
buffer allocation fails, or spawning is enabled and the WAD is unreadable
or `fork` fails), `get_or_create` reports the resource error, spawns
nothing that survives, leaves the slot byte-for-byte empty and every
other slot untouched, and a later `get_or_create` of the same identifier
behaves exactly as if the slot had never been touched. -/
theorem c2_rollback_to_empty (env : Env) (pool : Pool) (sid : Int) (now : Nat)
    (h0 : 0 ≤ sid) (h8 : sid < (MAX_SESSIONS : Int))
    (hempty : (pool sid.toNat).active = false)
    (hfail : env.mallocOk = false ∨
      (env.disableSpawn = false ∧
        (env.wadReadable = false ∨ env.forkPid = none))) :
    (session_get_or_create env pool sid now).1 = GetRes.resourceErr ∧
    (session_get_or_create env pool sid now).2.1 sid.toNat = emptySession ∧
    (∀ j, j ≠ sid.toNat → (session_get_or_create env pool sid now).2.1 j = pool j) ∧
    (session_get_or_create env pool sid now).2.2 = 0 ∧
    (∀ env2 t2, session_get_or_create env2 (session_get_or_create env pool sid now).2.1 sid t2 =
      session_get_or_create env2 pool sid t2) := by
  have hmain : session_get_or_create env pool sid now =
      (GetRes.resourceErr, setPool pool sid.toNat emptySession, 0) := by
    unfold session_get_or_create
    rw [if_neg (by omega)]
    simp only [hempty, reduceIte]
    rcases hfail with hm | ⟨hd, hsp⟩
    · simp [hm, session_free]
    · by_cases hm : env.mallocOk = false
      · simp [hm, session_free]
      · simp only [hm, reduceIte]
        rw [maybe_spawn_fail env _ hd hsp]
        cases ho : env.openDisplay <;> cases hfw : env.findWin <;>
          simp [ho, hfw, session_free]
  refine ⟨by rw [hmain], ?_, ?_, by rw [hmain], ?_⟩
  · rw [hmain]; simp [setPool]
  · intro j hj
    rw [hmain]; simp [setPool, hj]
  · intro env2 t2
    rw [hmain]
    apply get_or_create_congr env2 _ pool sid t2 h0 h8 ?_ hempty ?_
    · simp [setPool, emptySession]
    · intro j hj
      simp [setPool, hj]

theorem c2_rollback_witness :
    (session_get_or_create { envW with forkPid := none } poolW 0 5).1 =
      GetRes.resourceErr :=
  (c2_rollback_to_empty { envW with forkPid := none } poolW 0 5 (by norm_num)
    (by norm_num [MAX_SESSIONS]) rfl (Or.inr ⟨rfl, Or.inr rfl⟩)).1

/-- A contiguous run of `b ≥ 1` set bits is odd after removing the
trailing-zero shift. -/
lemma two_pow_pred_mod_two (b : Nat) (hb : 1 ≤ b) : (2 ^ b - 1) % 2 = 1 := by
  obtain ⟨b', rfl⟩ : ∃ b', b = b' + 1 := ⟨b - 1, by omega⟩
  have h1 : 1 ≤ 2 ^ b' := Nat.one_le_two_pow
  rw [pow_succ]
  omega

/-- A contiguous mask with `b ≥ 1` bits is nonzero. -/
lemma contig_mask_ne_zero (b s : Nat) (hb : 1 ≤ b) :
    (2 ^ b - 1) * 2 ^ s ≠ 0 := by
  have h1 : 1 < 2 ^ b := Nat.one_lt_two_pow (by omega)
  have h2 : 0 < 2 ^ s := Nat.pos_pow_of_pos s (by norm_num)
  exact Nat.mul_ne_zero (by omega) (by omega)

/-- Value of `mask_shift` on a contiguous mask: its shift. -/
lemma mask_shift_contig (b s : Nat) (hb : 1 ≤ b) :
    mask_shift ((2 ^ b - 1) * 2 ^ s) = s := by
  induction s with
  | zero =>
      rw [mask_shift]
      rw [dif_neg (contig_mask_ne_zero b 0 hb)]
      rw [if_pos]
      rw [pow_zero, mul_one]
      exact two_pow_pred_mod_two b hb
  | succ s ih =>
      rw [mask_shift]
      rw [dif_neg (contig_mask_ne_zero b (s + 1) hb)]
      have heven : (2 ^ b - 1) * 2 ^ (s + 1) % 2 = 0 := by
        rw [pow_succ, ← mul_assoc]
        simp [Nat.mul_mod_left]
      rw [if_neg (by omega)]
      have hdiv : (2 ^ b - 1) * 2 ^ (s + 1) / 2 = (2 ^ b - 1) * 2 ^ s := by
        rw [pow_succ, ← mul_assoc]
        exact Nat.mul_div_cancel _ (by norm_num)
      rw [hdiv, ih]

/-- Value of `mask_bits` on an all-ones mask: its width. -/
lemma mask_bits_all_ones (b : Nat) : mask_bits (2 ^ b - 1) = b := by
  induction b with
  | zero => rw [mask_bits]; simp
  | succ n ih =>
      have h1 : 1 ≤ 2 ^ n := Nat.one_le_two_pow
      have hpow : 2 ^ (n + 1) = 2 ^ n * 2 := pow_succ 2 n
      rw [mask_bits]
      rw [dif_neg (by omega)]
      have hmod : (2 ^ (n + 1) - 1) % 2 = 1 := two_pow_pred_mod_two (n + 1) (by omega)
      have hdiv : (2 ^ (n + 1) - 1) / 2 = 2 ^ n - 1 := by omega
      rw [hmod, hdiv, ih]
      omega

/-- Value of `mask_bits` on a contiguous mask: its width. -/
lemma mask_bits_contig (b s : Nat) (hb : 1 ≤ b) :
    mask_bits ((2 ^ b - 1) * 2 ^ s) = b := by
  induction s with
  | zero => rw [pow_zero, mul_one]; exact mask_bits_all_ones b
  | succ s ih =>
      rw [mask_bits]
      rw [dif_neg (contig_mask_ne_zero b (s + 1) hb)]
      have heven : (2 ^ b - 1) * 2 ^ (s + 1) % 2 = 0 := by
        rw [pow_succ, ← mul_assoc]
        simp [Nat.mul_mod_left]
      have hdiv : (2 ^ b - 1) * 2 ^ (s + 1) / 2 = (2 ^ b - 1) * 2 ^ s := by
        rw [pow_succ, ← mul_assoc]
        exact Nat.mul_div_cancel _ (by norm_num)
      rw [heven, hdiv, ih]
      omega

/-- The channel value extracted under a contiguous mask is bounded by the
mask width. -/
lemma contig_value_le (pixel b s : Nat) :
    (pixel &&& (2 ^ b - 1) * 2 ^ s) >>> s ≤ 2 ^ b - 1 := by
  have h1 : pixel &&& (2 ^ b - 1) * 2 ^ s ≤ (2 ^ b - 1) * 2 ^ s :=
    Nat.and_le_right
  rw [Nat.shiftRight_eq_div_pow]
  calc (pixel &&& (2 ^ b - 1) * 2 ^ s) / 2 ^ s
      ≤ (2 ^ b - 1) * 2 ^ s / 2 ^ s := Nat.div_le_div_right h1
    _ = 2 ^ b - 1 := Nat.mul_div_cancel _ (Nat.pos_pow_of_pos s (by norm_num))

/-- C5: channel normalization of `extract_component` for a contiguous
mask of `b` bits shifted left by `s`.  An exactly 8-bit mask yields the
masked, shifted raw value unrescaled; a narrower mask sends the maximal
channel value to 255 and zero to 0; a wider mask truncates by a right
shift of `b - 8`. -/
theorem c5_extract_component_normalization (pixel b s : Nat) (hb : 1 ≤ b) :
    (b = 8 → extract_component pixel ((2 ^ b - 1) * 2 ^ s) =
      (pixel &&& (2 ^ b - 1) * 2 ^ s) >>> s) ∧
    (b < 8 →
      ((pixel &&& (2 ^ b - 1) * 2 ^ s) >>> s = 2 ^ b - 1 →
        extract_component pixel ((2 ^ b - 1) * 2 ^ s) = 255) ∧
      ((pixel &&& (2 ^ b - 1) * 2 ^ s) >>> s = 0 →
        extract_component pixel ((2 ^ b - 1) * 2 ^ s) = 0)) ∧
    (8 < b → extract_component pixel ((2 ^ b - 1) * 2 ^ s) =
      ((pixel &&& (2 ^ b - 1) * 2 ^ s) >>> s) >>> (b - 8)) := by
  have hne := contig_mask_ne_zero b s hb
  have hsh := mask_shift_contig b s hb
  have hbi := mask_bits_contig b s hb
  have hle := contig_value_le pixel b s
  unfold extract_component
  rw [if_neg hne, hsh, hbi]
  refine ⟨?_, ?_, ?_⟩
  · rintro rfl
    rw [if_pos (le_refl 8)]
    rw [Nat.sub_self, Nat.shiftRight_zero]
    exact Nat.mod_eq_of_lt (by norm_num at hle ⊢; omega)
  · intro hlt
    constructor
    · intro hv
      rw [if_neg (by omega), hv]
      have hmax : 2 ^ b - 1 ≠ 0 := by
        have := @Nat.one_lt_two_pow b (by omega)
        omega
      rw [if_neg hmax]
      have hsmall : 2 ^ b ≤ 2 ^ 8 := Nat.pow_le_pow_right (by norm_num) (by omega)
      have hprod : (2 ^ b - 1) * 255 < ULMOD := by
        have : (2 ^ b - 1) * 255 ≤ 255 * 255 := by
          apply Nat.mul_le_mul_right
          norm_num at hsmall ⊢
          omega
        unfold ULMOD
        omega
      rw [Nat.mod_eq_of_lt hprod]
      rw [Nat.mul_div_cancel_left 255 (by omega)]
    · intro hv
      rw [if_neg (by omega), hv]
      simp
  · intro hgt
    rw [if_pos (by omega)]
    have hbound : (pixel &&& (2 ^ b - 1) * 2 ^ s) >>> s >>> (b - 8) ≤ 2 ^ 8 - 1 := by
      rw [Nat.shiftRight_eq_div_pow]
      have hsplit : 2 ^ b = 2 ^ (b - 8) * 2 ^ 8 := by
        rw [← pow_add]
        congr 1
        omega
      have hdivle : (pixel &&& (2 ^ b - 1) * 2 ^ s) >>> s / 2 ^ (b - 8) ≤
          (2 ^ b - 1) / 2 ^ (b - 8) := Nat.div_le_div_right hle
      have hdveq : (2 ^ b - 1) / 2 ^ (b - 8) = 2 ^ 8 - 1 := by
        apply Nat.div_eq_of_lt_le
        · rw [hsplit]
          have h1 : 1 ≤ 2 ^ (b - 8) := Nat.one_le_two_pow
          norm_num at h1 ⊢
          omega
        · rw [hsplit]
          have h1 : 1 ≤ 2 ^ (b - 8) := Nat.one_le_two_pow
          norm_num at h1 ⊢
          omega
      omega
    exact Nat.mod_eq_of_lt (by norm_num at hbound ⊢; omega)

theorem c5_extract_component_witness :
    extract_component 0xAB1234 ((2 ^ 8 - 1) * 2 ^ 16) =
      (0xAB1234 &&& (2 ^ 8 - 1) * 2 ^ 16) >>> 16 :=
  (c5_extract_component_normalization 0xAB1234 8 16 (by norm_num)).1 rfl

/-- When every keysym lookup fails, the alias loop never resolves. -/
lemma aliasLookup_none (env : Env) (l : List Char)
    (h : ∀ s, env.lookup s = none) :
    ∀ al, aliasLookup env l al = none := by
  intro al
  induction al with
  | nil => rfl
  | cons hd tl ih =>
      obtain ⟨a, b⟩ := hd
      simp [aliasLookup, h, ih]

/-- C10: any single-character token resolves — whatever the X server's
keysym table answers — and with no table entry at all a non-alphabetic
single character falls back to its own character code, so only tokens of
length at least two can fail the name-lookup stage. -/
theorem c10_single_char_resolution :
    (∀ (env : Env) (name : List Char), name.length = 1 →
      (resolve_keysym env name).isSome = true) ∧
    (∀ (env : Env) (c : Char), (∀ s, env.lookup s = none) →
      c_isalpha c = false → resolve_keysym env [c] = some c.toNat) := by
  constructor
  · intro env name hlen
    obtain ⟨c, rfl⟩ : ∃ c, name = [c] := by
      cases name with
      | nil => simp at hlen
      | cons a t =>
          cases t with
          | nil => exact ⟨a, rfl⟩
          | cons b u => simp at hlen
    unfold resolve_keysym
    rw [if_neg (by simp)]
    simp only [List.take_succ_cons, List.take_nil, List.length_cons,
      List.length_nil, List.map_cons, List.map_nil]
    repeat' split
    all_goals simp_all
  · intro env c hl hc
    unfold resolve_keysym
    rw [if_neg (by simp)]
    simp [aliasLookup_none env _ hl, keyFourPath, digitSixPath, hl, hc]

theorem c10_single_char_witness :
    (resolve_keysym envW ['5']).isSome = true ∧
    resolve_keysym envW ['%'] = some 37 :=
  ⟨c10_single_char_resolution.1 envW ['5'] rfl,
   c10_single_char_resolution.2 envW '%' (fun _ => rfl) rfl⟩

/-- A lookup table hit on `space` resolves through the alias loop. -/
lemma resolve_space_hit (env : Env) (k : Nat)
    (h : env.lookup "space".toList = some k) :
    resolve_keysym env "space".toList = some k := by
  simp only [String.toList] at h
  simp [resolve_keysym, aliasLookup, key_aliases, c_tolower, h]

/-- The uppercased token resolves through the same alias entry. -/
lemma resolve_space_upper (env : Env) (k : Nat)
    (h : env.lookup "space".toList = some k) :
    resolve_keysym env "SPACE".toList = some k := by
  simp only [String.toList] at h
  simp [resolve_keysym, aliasLookup, key_aliases, c_tolower, h]

/-- A token matching no alias, no fast path and no keysym name resolves
to nothing. -/
lemma resolve_zzzz_none (env : Env)
    (h : env.lookup "zzzznotakey".toList = none) :
    resolve_keysym env "zzzznotakey".toList = none := by
  simp only [String.toList] at h
  simp [resolve_keysym, aliasLookup, key_aliases, c_tolower, keyFourPath,
    digitSixPath, h]

/-- An active session bound to a display with working XTest. -/
def c6s : Session :=
  { emptySession with active := true, display := true, xtest_available := true }

/-- C6 counterexample: the unresolvable token is rejected with no
synthesized event, but the session is *not* left unaltered — the
last-activity timestamp is unconditionally refreshed on entry to
`session_write_input`. -/
theorem c6_counterexample :
    (session_write_input envW c6s "zzzznotakey".toList 1).1 = -1 ∧
    (session_write_input envW c6s "zzzznotakey".toList 1).2.2 = [] ∧
    c6s.last_activity = 0 ∧
    (session_write_input envW c6s "zzzznotakey".toList 1).2.1.last_activity = 1 ∧
    (session_write_input envW c6s "zzzznotakey".toList 1).2.1 ≠ c6s := by
  refine ⟨rfl, rfl, rfl, rfl, ?_⟩
  intro h
  exact absurd (congrArg Session.last_activity h) (by decide)

/-- C6 (amended): `space`, `SPACE` and `" space "` all resolve to the
same canonical key; a case-insensitive `:down`/`:press` suffix
synthesizes exactly one press and no release, `:up`/`:release` exactly
one release; no suffix synthesizes exactly one press followed by one
release; an unresolvable token returns the error with no synthesized
event, leaving the session unchanged except for the last-activity
timestamp, which `session_write_input` refreshes unconditionally on
entry. -/
theorem c6_amended_input_tokens (env : Env) (s : Session) (ks kc now : Nat)
    (hdisp : s.display = true) (hxt : s.xtest_available = true)
    (hsp : env.lookup "space".toList = some ks)
    (hkc : env.keycodeOf ks = kc) (h0 : kc ≠ 0)
    (hzz : env.lookup "zzzznotakey".toList = none) :
    ((session_write_input env s "space".toList now).1 = 0 ∧
      (session_write_input env s "space".toList now).2.2 =
        [KeyEvent.keyDown kc, KeyEvent.keyUp kc]) ∧
    (session_write_input env s "SPACE".toList now).2.2 =
      [KeyEvent.keyDown kc, KeyEvent.keyUp kc] ∧
    (session_write_input env s " space ".toList now).2.2 =
      [KeyEvent.keyDown kc, KeyEvent.keyUp kc] ∧
    (session_write_input env s "space:down".toList now).2.2 =
      [KeyEvent.keyDown kc] ∧
    (session_write_input env s "space:DOWN".toList now).2.2 =
      [KeyEvent.keyDown kc] ∧
    (session_write_input env s "space:press".toList now).2.2 =
      [KeyEvent.keyDown kc] ∧
    (session_write_input env s "space:up".toList now).2.2 =
      [KeyEvent.keyUp kc] ∧
    (session_write_input env s "space:release".toList now).2.2 =
      [KeyEvent.keyUp kc] ∧
    session_write_input env s "zzzznotakey".toList now =
      (-1, { s with last_activity := now }, []) := by
  have hres := resolve_space_hit env ks hsp
  simp only [String.toList] at hres
  have hres2 := resolve_space_upper env ks hsp
  simp only [String.toList] at hres2
  have hzres := resolve_zzzz_none env hzz
  simp only [String.toList] at hzres
  refine ⟨⟨?_, ?_⟩, ?_, ?_, ?_, ?_, ?_, ?_, ?_, ?_⟩ <;>
    simp [session_write_input, hdisp, hxt, c_trim, c_isspace, strip_key_tag,
      truncate62, split_action, lastColonIdx, c_tolower, hres, hres2, hzres,
      hkc, h0]

/-- A concrete environment whose keysym table knows only `space`. -/
def envSpace : Env :=
  { envW with
    lookup := fun s => if s = "space".toList then some 32 else none
    keycodeOf := fun k => if k = 32 then 65 else 0 }

theorem c6_amended_witness :
    (session_write_input envSpace c6s "space:down".toList 3).2.2 =
      [KeyEvent.keyDown 65] :=
  (c6_amended_input_tokens envSpace c6s 32 65 3 rfl rfl rfl rfl
    (by decide) rfl).2.2.2.1

/-- Relation `leadsWith` is exactly the head-anchored match relation. -/
lemma leadsWith_eq_true (n : List Char) :
    ∀ h, leadsWith n h = true ↔ ∃ t, h = n ++ t := by
  induction n with
  | nil => intro h; simp [leadsWith]
  | cons a as ih =>
      intro h
      cases h with
      | nil => simp [leadsWith]
      | cons b bs =>
          rw [leadsWith]
          rw [Bool.and_eq_true, beq_iff_eq, ih]
          constructor
          · rintro ⟨rfl, t, rfl⟩
            exact ⟨t, rfl⟩
          · rintro ⟨t, heq⟩
            injection heq with h1 h2
            exact ⟨h1.symm, t, h2⟩

/-- Relation `occursB` is exactly substring occurrence. -/
lemma occursB_eq_true (n : List Char) :
    ∀ h, occursB n h = true ↔ ∃ x y, h = x ++ n ++ y := by
  intro h
  induction h with
  | nil =>
      cases n with
      | nil =>
          constructor
          · intro _; exact ⟨[], [], rfl⟩
          · intro _; rfl
      | cons c cs => simp [occursB, leadsWith]
  | cons c t ih =>
      rw [occursB]
      rw [Bool.or_eq_true, leadsWith_eq_true, ih]
      constructor
      · rintro (⟨t', ht⟩ | ⟨x, y, hxy⟩)
        · exact ⟨[], t', by simpa using ht⟩
        · exact ⟨c :: x, y, by simp [hxy]⟩
      · rintro ⟨x, y, hxy⟩
        cases x with
        | nil =>
            left
            exact ⟨y, by simpa using hxy⟩
        | cons x0 xs =>
            right
            injection hxy with h1 h2
            exact ⟨xs, y, h2⟩

/-- One-step unfolding of `findSub` on a nonempty haystack. -/
lemma findSub_cons (c : Char) (t needle : List Char) :
    findSub (c :: t) needle =
      if leadsWith needle (c :: t) then some ((c :: t).drop needle.length)
      else findSub t needle := by
  rw [findSub.eq_def]

/-- When the needle occurs nowhere, `strstr` reports no match. -/
lemma findSub_of_no_occur (q : List Char)
    (h : occursB sessionNeedle q = false) :
    findSub q sessionNeedle = none := by
  induction q with
  | nil => rfl
  | cons c t ih =>
      rw [occursB, Bool.or_eq_false_iff] at h
      rw [findSub_cons, if_neg (by rw [h.1]; simp)]
      exact ih h.2

/-- A query in which `session=` never occurs parses to session id 0. -/
lemma parse_session_id_no_occur (q : List Char)
    (h : occursB sessionNeedle q = false) :
    parse_session_id q = 0 := by
  unfold parse_session_id
  rw [findSub_of_no_occur q h]
  split <;> rfl

/-- Lemma: `strstr` finds the needle right after a clean leading segment: if the needle
does not occur inside `a ++ "session"`, the first occurrence in
`a ++ "session=" ++ b` starts exactly at `a`. -/
lemma findSub_boundary (a b : List Char)
    (hno : occursB sessionNeedle (a ++ "session".toList) = false) :
    findSub (a ++ sessionNeedle ++ b) sessionNeedle = some b := by
  induction a with
  | nil =>
      rw [List.nil_append, findSub.eq_def]
      show (if leadsWith sessionNeedle (sessionNeedle ++ b) = true then
          some (List.drop sessionNeedle.length (sessionNeedle ++ b))
        else
          match sessionNeedle ++ b with
          | [] => none
          | _ :: t => findSub t sessionNeedle) = some b
      rw [if_pos ((leadsWith_eq_true _ _).mpr ⟨b, rfl⟩)]
      rw [List.drop_left]
  | cons c a' ih =>
      simp only [List.cons_append] at hno ⊢
      have hno2 := hno
      rw [occursB, Bool.or_eq_false_iff] at hno2
      have hsplit : c :: (a' ++ sessionNeedle ++ b) =
          (c :: (a' ++ "session".toList)) ++ ('=' :: b) := by
        simp [show sessionNeedle = "session".toList ++ ['='] from rfl]
      have hlen : sessionNeedle.length ≤ (c :: (a' ++ "session".toList)).length := by
        simp [sessionNeedle]
      have hlead : leadsWith sessionNeedle (c :: (a' ++ sessionNeedle ++ b)) = false := by
        by_contra hx
        rw [Bool.not_eq_false, leadsWith_eq_true] at hx
        obtain ⟨t, ht⟩ := hx
        have h2 : (c :: (a' ++ "session".toList)) ++ ('=' :: b) =
            sessionNeedle ++ t := hsplit.symm.trans ht
        have h1 := @List.take_append_of_le_length Char
          (c :: (a' ++ "session".toList)) ('=' :: b) sessionNeedle.length hlen
        have htake : (c :: (a' ++ "session".toList)).take sessionNeedle.length =
            sessionNeedle := by
          rw [← h1, h2, List.take_left]
        have hocc : occursB sessionNeedle (c :: (a' ++ "session".toList)) = true := by
          rw [occursB_eq_true]
          refine ⟨[], (c :: (a' ++ "session".toList)).drop sessionNeedle.length, ?_⟩
          rw [List.nil_append]
          conv_lhs => rw [← List.take_append_drop sessionNeedle.length
            (c :: (a' ++ "session".toList))]
          rw [htake]
        rw [hocc] at hno
        exact absurd hno (by simp)
      rw [findSub_cons, if_neg (by rw [hlead]; simp)]
      exact ih hno2.2

/-- Lemma: `atoi` of text whose first non-space character is neither a digit nor
a sign is 0. -/
lemma atoi_unparsable (b : List Char) (c : Char) (rest : List Char)
    (hdrop : b.dropWhile c_isspace = c :: rest)
    (hc : c_isdigit c = false) (hminus : c ≠ '-') (hplus : c ≠ '+') :
    atoi b = 0 := by
  have hdg : digitsVal (c :: rest) = 0 := by
    unfold digitsVal
    rw [List.takeWhile_cons, if_neg (by simp [hc])]
    rfl
  unfold atoi
  simp only [hdrop]
  rw [if_neg hminus, if_neg hplus, hdg]
  rfl

/-- C8 counterexample: in the query `xsession=9&session=5` the `session`
parameter is present with the parsable value 5, yet the extraction
returns 9 — `strstr` matches the substring `session=` inside the
`xsession` parameter first, so a present, parsable value is *not*
returned as-is. -/
theorem c8_counterexample :
    specSessionValue "xsession=9&session=5".toList = some ['5'] ∧
    atoi ['5'] = 5 ∧
    parse_session_id "xsession=9&session=5".toList = 9 ∧
    (9 : Int) ≠ 5 := by
  refine ⟨by decide, by decide, by decide, by decide⟩

/-- C8 (amended): the extraction scans the raw query for the first
occurrence of the substring `session=` — parameter boundaries are not
respected — and returns C `atoi` of the text after it.  It yields 0 when
the substring is absent, and, when the first occurrence starts after a
prefix that cannot contain the substring, it returns `atoi` of exactly
the text following that occurrence (0 when that text is unparsable, the
leading integer as-is when parsable). -/
theorem c8_amended_substring_extraction :
    (∀ q, occursB sessionNeedle q = false → parse_session_id q = 0) ∧
    (∀ a b, occursB sessionNeedle (a ++ "session".toList) = false →
      parse_session_id (a ++ sessionNeedle ++ b) = atoi b) ∧
    (∀ b c rest, b.dropWhile c_isspace = c :: rest →
      c_isdigit c = false → c ≠ '-' → c ≠ '+' → atoi b = 0) := by
  refine ⟨parse_session_id_no_occur, ?_, atoi_unparsable⟩
  intro a b hno
  unfold parse_session_id
  rw [findSub_boundary a b hno]
  rw [if_neg ?_]
  intro hq
  have : ((a ++ sessionNeedle) ++ b).length = 0 := by rw [hq]; rfl
  simp [sessionNeedle] at this

theorem c8_amended_witness :
    parse_session_id ("a=1&".toList ++ sessionNeedle ++ "5x".toList) = 5 := by
  have h := c8_amended_substring_extraction.2.1 "a=1&".toList "5x".toList
    (by decide)
  rw [h]
  decide

/-- C9: a `POST /input` request for an empty slot first creates and fully
initializes the session — allocating the buffer and spawning the external
program, with a pool effect identical to the streaming route's lookup —
before the body is examined, so an empty-body request answered 400 still
leaves the slot active. -/
theorem c9_input_creates_session_before_body (env : Env) (query : List Char)
    (pool : Pool) (t1 t2 : Nat) (p : Nat)
    (h0 : 0 ≤ parse_session_id query)
    (h8 : parse_session_id query < (MAX_SESSIONS : Int))
    (hempty : (pool (parse_session_id query).toNat).active = false)
    (hm : env.mallocOk = true) (hd : env.disableSpawn = false)
    (hw : env.wadReadable = true) (hf : env.forkPid = some p) :
    handle_input_route env query [] pool t1 t2 =
      (400, setPool pool (parse_session_id query).toNat
        (initSession env (parse_session_id query) t1), 1, []) ∧
    ((handle_input_route env query [] pool t1 t2).2.1
      (parse_session_id query).toNat).active = true ∧
    ((handle_input_route env query [] pool t1 t2).2.1
      (parse_session_id query).toNat).rgb_allocated = true ∧
    ((handle_input_route env query [] pool t1 t2).2.1
      (parse_session_id query).toNat).doom_pid = p ∧
    (handle_input_route env query [] pool t1 t2).2.1 =
      (handle_stream_route env query pool t1).2.1 := by
  have h1 := get_or_create_empty_success env pool (parse_session_id query) t1 p
    h0 h8 hempty hm hd hw hf
  have hmain : handle_input_route env query [] pool t1 t2 =
      (400, setPool pool (parse_session_id query).toNat
        (initSession env (parse_session_id query) t1), 1, []) := by
    unfold handle_input_route
    rw [h1]
    rfl
  have hstream : (handle_stream_route env query pool t1).2.1 =
      setPool pool (parse_session_id query).toNat
        (initSession env (parse_session_id query) t1) := by
    unfold handle_stream_route
    rw [h1]
  refine ⟨hmain, ?_, ?_, ?_, ?_⟩
  · rw [hmain]; simp [setPool]; rfl
  · rw [hmain]; simp [setPool]; rfl
  · rw [hmain]; simp [setPool, initSession, hf]
  · rw [hmain, hstream]

theorem c9_witness :
    (handle_input_route envW ("session=3".toList) [] poolW 5 6).1 = 400 := by
  have h := (c9_input_creates_session_before_body envW ("session=3".toList)
    poolW 5 6 7 (by decide) (by decide) rfl rfl rfl rfl rfl).1
  rw [h]

end DoomServer
